import Mathlib

/-!
Verification development for the LTA DataMall MCP server
(`src/http-server.ts`, `src/firebase-analytics.ts`).

The definitions below are a shallow embedding of the server code:

* JavaScript objects used as counter maps (`Record<string, number>`) are
  embedded as association lists preserving insertion order; property update
  `m[k] = (m[k] || 0) + v` becomes `bump`, property read `m[k] || 0` becomes
  `lookupD`.  Keys of a JavaScript object are unique, which some theorems
  record as a `Nodup` hypothesis on imported deltas.
* The upstream axios call is embedded by parameterising over the observable
  outcome of the single HTTP GET (`UpstreamOutcome`): a 2xx body, an
  axios-recognised error (with optional structured `Message`), or a
  non-axios failure.  A thrown JavaScript exception is `Except.error`.
* Counters are `Nat` (the analytics counters are non-negative integers).
-/

namespace LtaMcp

/-! ## Counter maps (JavaScript objects of numbers) -/

abbrev CounterMap := List (String × Nat)

/-- `m[k] || 0`: read of a possibly missing numeric property. -/
def lookupD : CounterMap → String → Nat
  | [], _ => 0
  | p :: rest, key => if p.1 = key then p.2 else lookupD rest key

/-- `m[k] = (m[k] || 0) + v`: update the (unique) entry for `key`,
appending a fresh entry when the key is absent. -/
def bump : CounterMap → String → Nat → CounterMap
  | [], key, v => [(key, v)]
  | p :: rest, key, v =>
      if p.1 = key then (p.1, p.2 + v) :: rest else p :: bump rest key v

/-! ## Analytics data model (`AnalyticsData` in `firebase-analytics.ts`) -/

/-- One entry of `recentToolCalls`, as built by `trackToolCall`. -/
structure ToolCallRecord where
  tool : String
  timestamp : String
  clientIp : String
  userAgent : String
  deriving Repr, DecidableEq

/-- The in-memory analytics state (`AnalyticsData`). -/
structure AnalyticsData where
  serverStartTime : String
  totalRequests : Nat
  totalToolCalls : Nat
  requestsByMethod : CounterMap
  requestsByEndpoint : CounterMap
  toolCalls : CounterMap
  recentToolCalls : List ToolCallRecord
  clientsByIp : CounterMap
  clientsByUserAgent : CounterMap
  hourlyRequests : CounterMap
  deriving Repr, DecidableEq

/-- The module-initialisation value of `analytics` in `http-server.ts`
(all counters zero, `serverStartTime` taken at process start). -/
def initialAnalytics (processStart : String) : AnalyticsData :=
  { serverStartTime := processStart
    totalRequests := 0
    totalToolCalls := 0
    requestsByMethod := []
    requestsByEndpoint := []
    toolCalls := []
    recentToolCalls := []
    clientsByIp := []
    clientsByUserAgent := []
    hourlyRequests := [] }

/-- `MAX_RECENT_CALLS` (`http-server.ts` line 34). -/
def MAX_RECENT_CALLS : Nat := 100

/-- `trackRequest(req, endpoint)` (`http-server.ts` lines 118-139).
The client IP and the hour bucket are resolved from the request and the
clock before the counter updates; they enter here as arguments.  The
user agent header is optional (`req.headers` lookup), defaulted to
`"unknown"` and truncated to 50 characters. -/
def trackRequest (method endpoint clientIp : String)
    (userAgentHeader : Option String) (hour : String)
    (a : AnalyticsData) : AnalyticsData :=
  { a with
    totalRequests := a.totalRequests + 1
    requestsByMethod := bump a.requestsByMethod method 1
    requestsByEndpoint := bump a.requestsByEndpoint endpoint 1
    clientsByIp := bump a.clientsByIp clientIp 1
    clientsByUserAgent :=
      bump a.clientsByUserAgent ((userAgentHeader.getD "unknown").take 50) 1
    hourlyRequests := bump a.hourlyRequests hour 1 }

/-- `trackToolCall(toolName, req)` (`http-server.ts` lines 142-158):
increment `totalToolCalls` and `toolCalls[toolName]`, unshift a fresh
record onto `recentToolCalls`, and pop the oldest record when the length
exceeds `MAX_RECENT_CALLS`. -/
def trackToolCall (toolName timestamp clientIp : String)
    (userAgentHeader : Option String) (a : AnalyticsData) : AnalyticsData :=
  let record : ToolCallRecord :=
    { tool := toolName
      timestamp := timestamp
      clientIp := clientIp
      userAgent := (userAgentHeader.getD "unknown").take 50 }
  let afterCounts :=
    { a with
      totalToolCalls := a.totalToolCalls + 1
      toolCalls := bump a.toolCalls toolName 1 }
  let newRecent := record :: afterCounts.recentToolCalls
  { afterCounts with
    recentToolCalls :=
      if MAX_RECENT_CALLS < newRecent.length then newRecent.dropLast
      else newRecent }

/-! ## Credential resolution (`getApiKey`, `http-server.ts` lines 184-187) -/

/-- `req.query.apiKey || DEFAULT_LTA_API_KEY` — the query parameter wins
when present and truthy (a missing parameter is `undefined`, an empty
string is falsy). -/
def getApiKey (queryApiKey : Option String) (defaultKey : String) : String :=
  match queryApiKey with
  | some k => if k = "" then defaultKey else k
  | none => defaultKey

/-! ## Tool dispatch (`registerTools` / `CallToolRequestSchema` handler,
`http-server.ts` lines 430-475) -/

/-- The result envelope `{content: [{type: text, text}], isError}` with
content reduced to its text parts; a missing `isError` property is the
falsy `false`. -/
structure ToolResult where
  content : List String
  isError : Bool
  deriving Repr, DecidableEq

/-- A thrown JavaScript exception escaping the handler. -/
inductive Fault where
  /-- `throw new Error(...)` on an unknown tool name (line 473). -/
  | unknownTool (name : String)
  /-- a non-axios error rethrown by `makeRequest` (line 444). -/
  | transport (message : String)
  deriving Repr, DecidableEq

/-- Observable outcome of the single upstream `axios.get`. -/
inductive UpstreamOutcome where
  /-- 2xx response; `body` stands for `JSON.stringify(response.data, null, 2)`. -/
  | ok (body : String)
  /-- `axios.isAxiosError(error)`: `structuredMessage` is
  `error.response?.data?.Message` (absent when the body has none),
  `genericMessage` is `error.message`. -/
  | axiosErr (structuredMessage : Option String) (genericMessage : String)
  /-- an error axios does not recognise (rethrown). -/
  | hardFail (message : String)
  deriving Repr, DecidableEq

/-- `makeRequest` result mapping (`http-server.ts` lines 433-446). -/
def makeRequest (up : UpstreamOutcome) : Except Fault ToolResult :=
  match up with
  | .ok body => .ok { content := [body], isError := false }
  | .axiosErr m g =>
      .ok { content := ["LTA API error: " ++ m.getD g], isError := true }
  | .hardFail e => .error (.transport e)

/-- The single upstream HTTP GET issued by `makeRequest`: url, query
params, and the `AccountKey` header. -/
structure UpstreamRequest where
  url : String
  params : List (String × String)
  accountKey : String
  deriving Repr, DecidableEq

/-- The `arguments` object of a call-tool request, as destructured by the
handler (`args as {busStopCode...}` is a compile-time cast only; missing
properties are `undefined`). -/
structure Args where
  busStopCode : Option String
  serviceNo : Option String
  trainLine : Option String
  deriving Repr, DecidableEq

def busArrivalUrl : String :=
  "https://datamall2.mytransport.sg/ltaodataservice/v3/BusArrival"
def stationCrowdingUrl : String :=
  "https://datamall2.mytransport.sg/ltaodataservice/PCDRealTime"
def trainAlertsUrl : String :=
  "https://datamall2.mytransport.sg/ltaodataservice/TrainServiceAlerts"
def carparkAvailabilityUrl : String :=
  "https://datamall2.mytransport.sg/ltaodataservice/CarParkAvailabilityv2"
def travelTimesUrl : String :=
  "https://datamall2.mytransport.sg/ltaodataservice/EstTravelTimes"
def trafficIncidentsUrl : String :=
  "https://datamall2.mytransport.sg/ltaodataservice/TrafficIncidents"
def crowdForecastUrl : String :=
  "https://datamall2.mytransport.sg/ltaodataservice/PCDForecast"

/-- A query parameter whose value may be `undefined` (axios drops
undefined-valued params from the request). -/
def optParam (key : String) (v : Option String) : List (String × String) :=
  match v with
  | some s => [(key, s)]
  | none => []

/-- `{ BusStopCode: busStopCode, ...(serviceNo && { ServiceNo: serviceNo }) }`:
the spread is included only when `serviceNo` is truthy (present and
non-empty). -/
def busArrivalParams (args : Args) : List (String × String) :=
  optParam "BusStopCode" args.busStopCode ++
    (match args.serviceNo with
     | some s => if s = "" then [] else [("ServiceNo", s)]
     | none => [])

/-- `{ TrainLine: trainLine }` — passed through with no validation. -/
def trainLineParams (args : Args) : List (String × String) :=
  optParam "TrainLine" args.trainLine

/-- Perform the one upstream GET of `makeRequest`, recording the request
that was attempted. -/
def runUpstream (url : String) (params : List (String × String))
    (key : String) (up : UpstreamOutcome) :
    List UpstreamRequest × Except Fault ToolResult :=
  ([{ url := url, params := params, accountKey := key }], makeRequest up)

/-- The seven registered tool names, in registration order. -/
def registeredToolNames : List String :=
  ["bus_arrival", "station_crowding", "train_alerts",
   "carpark_availability", "travel_times", "traffic_incidents",
   "station_crowd_forecast"]

/-- The `switch (name)` of the `CallToolRequestSchema` handler
(`http-server.ts` lines 448-475).  Every recognised case immediately
calls `makeRequest` with the raw argument values — there is no parameter
validation of any kind.  The first component lists the upstream requests
attempted (empty for the `default` throw). -/
def callTool (name : String) (args : Args) (key : String)
    (up : UpstreamOutcome) : List UpstreamRequest × Except Fault ToolResult :=
  if name = "bus_arrival" then
    runUpstream busArrivalUrl (busArrivalParams args) key up
  else if name = "station_crowding" then
    runUpstream stationCrowdingUrl (trainLineParams args) key up
  else if name = "train_alerts" then
    runUpstream trainAlertsUrl [] key up
  else if name = "carpark_availability" then
    runUpstream carparkAvailabilityUrl [] key up
  else if name = "travel_times" then
    runUpstream travelTimesUrl [] key up
  else if name = "traffic_incidents" then
    runUpstream trafficIncidentsUrl [] key up
  else if name = "station_crowd_forecast" then
    runUpstream crowdForecastUrl (trainLineParams args) key up
  else ([], .error (.unknownTool name))

/-- A call-tool message handled through the `/mcp` route
(`http-server.ts` lines 307-361 followed by the tool handler):
`trackRequest` runs at entry; if no credential resolves the route
answers HTTP 500 and nothing else happens (no upstream request, no tool
result); otherwise the handler dispatches.  Note that the handler never
touches `totalToolCalls`, `toolCalls` or `recentToolCalls` —
`trackToolCall` has no call site in the source. -/
def mcpToolInvocation (a : AnalyticsData) (method clientIp : String)
    (userAgentHeader : Option String) (hour : String)
    (queryApiKey : Option String) (defaultKey : String)
    (name : String) (args : Args) (up : UpstreamOutcome) :
    AnalyticsData × List UpstreamRequest × Option (Except Fault ToolResult) :=
  let tracked := trackRequest method "/mcp" clientIp userAgentHeader hour a
  let key := getApiKey queryApiKey defaultKey
  if key = "" then (tracked, [], none)
  else
    let r := callTool name args key up
    (tracked, r.1, some r.2)

/-! ## Session routing on `/mcp` (`http-server.ts` lines 307-361) -/

/-- Outcome of the `/mcp` route dispatch. -/
inductive McpRouteResult where
  /-- HTTP 500 `Server configuration error: No LTA API key available`. -/
  | configError
  /-- HTTP 400 `No active session. Send a POST request first.` — the
  error response for GET/DELETE without a live session. -/
  | noSession
  /-- routed to the existing transport for this live session id. -/
  | handledExisting (sessionId : String)
  /-- a fresh server/transport pair is created and handles the request. -/
  | createdNew
  deriving Repr, DecidableEq

/-- The branch structure of `app.all('/mcp')`: credential gate, then
`if (sessionId && transports.has(sessionId))`, then the GET/DELETE
rejection, else creation.  `sessions` is the key set of the `transports`
map; an empty-string header is falsy in the first condition. -/
def mcpRoute (sessions : List String) (queryApiKey : Option String)
    (defaultKey : String) (method : String) (sessionId : Option String) :
    McpRouteResult :=
  if getApiKey queryApiKey defaultKey = "" then .configError
  else
    match sessionId with
    | some sid =>
        if sid ≠ "" ∧ sid ∈ sessions then .handledExisting sid
        else if method = "GET" ∨ method = "DELETE" then .noSession
        else .createdNew
    | none =>
        if method = "GET" ∨ method = "DELETE" then .noSession
        else .createdNew

/-- `transports.delete(sessionId)` as run by `transport.onclose`
(`http-server.ts` lines 351-355). -/
def closeSession (sessions : List String) (sid : String) : List String :=
  sessions.erase sid

/-! ## Analytics import (`app.post('/analytics/import')`,
`http-server.ts` lines 264-304) -/

/-- The JSON body accepted by `POST /analytics/import`; every property
may be absent. -/
structure ImportData where
  totalRequests : Option Nat
  totalToolCalls : Option Nat
  toolCalls : Option CounterMap
  requestsByMethod : Option CounterMap
  requestsByEndpoint : Option CounterMap
  clientsByIp : Option CounterMap
  clientsByUserAgent : Option CounterMap
  hourlyRequests : Option CounterMap
  serverStartTime : Option String
  recentToolCalls : Option (List ToolCallRecord)
  deriving Repr, DecidableEq

/-- The `for (const [tool, count] of Object.entries(...))` merge loop:
fold each delta entry into the base map with `bump`. -/
def mergeCounterMap (base delta : CounterMap) : CounterMap :=
  delta.foldl (fun acc kv => bump acc kv.1 kv.2) base

/-- The import handler body: `if (importData.totalRequests)` guards are
JavaScript truthiness (absent or zero skips the addition); only
`totalRequests`, `totalToolCalls`, `toolCalls` and `requestsByMethod`
are ever read from the body. -/
def importAnalytics (a : AnalyticsData) (d : ImportData) : AnalyticsData :=
  let a1 :=
    match d.totalRequests with
    | some n => if n = 0 then a else { a with totalRequests := a.totalRequests + n }
    | none => a
  let a2 :=
    match d.totalToolCalls with
    | some n => if n = 0 then a1 else { a1 with totalToolCalls := a1.totalToolCalls + n }
    | none => a1
  let a3 :=
    match d.toolCalls with
    | some m => { a2 with toolCalls := mergeCounterMap a2.toolCalls m }
    | none => a2
  match d.requestsByMethod with
  | some m => { a3 with requestsByMethod := mergeCounterMap a3.requestsByMethod m }
  | none => a3

/-- A full snapshot of the aggregator posted back as an import body
(every property present). -/
def snapshotDelta (a : AnalyticsData) : ImportData :=
  { totalRequests := some a.totalRequests
    totalToolCalls := some a.totalToolCalls
    toolCalls := some a.toolCalls
    requestsByMethod := some a.requestsByMethod
    requestsByEndpoint := some a.requestsByEndpoint
    clientsByIp := some a.clientsByIp
    clientsByUserAgent := some a.clientsByUserAgent
    hourlyRequests := some a.hourlyRequests
    serverStartTime := some a.serverStartTime
    recentToolCalls := some a.recentToolCalls }

/-! ## Startup rehydration (`ensureAnalyticsStructure` / `loadAnalytics`,
`http-server.ts` lines 59-100) -/

/-- A possibly partial stored snapshot (`Partial<AnalyticsData>`). -/
structure PartialAnalytics where
  serverStartTime : Option String
  totalRequests : Option Nat
  totalToolCalls : Option Nat
  requestsByMethod : Option CounterMap
  requestsByEndpoint : Option CounterMap
  toolCalls : Option CounterMap
  recentToolCalls : Option (List ToolCallRecord)
  clientsByIp : Option CounterMap
  clientsByUserAgent : Option CounterMap
  hourlyRequests : Option CounterMap
  deriving Repr, DecidableEq

/-- The all-absent stored snapshot. -/
def emptyPartial : PartialAnalytics :=
  { serverStartTime := none, totalRequests := none, totalToolCalls := none,
    requestsByMethod := none, requestsByEndpoint := none, toolCalls := none,
    recentToolCalls := none, clientsByIp := none, clientsByUserAgent := none,
    hourlyRequests := none }

/-- `ensureAnalyticsStructure(data)`: every field defaulted with `||`;
for `serverStartTime` the fallback is the current time (`now`), and an
empty string is falsy. -/
def ensureAnalyticsStructure (now : String) (d : PartialAnalytics) :
    AnalyticsData :=
  { serverStartTime :=
      match d.serverStartTime with
      | some s => if s = "" then now else s
      | none => now
    totalRequests := d.totalRequests.getD 0
    totalToolCalls := d.totalToolCalls.getD 0
    requestsByMethod := d.requestsByMethod.getD []
    requestsByEndpoint := d.requestsByEndpoint.getD []
    toolCalls := d.toolCalls.getD []
    recentToolCalls := d.recentToolCalls.getD []
    clientsByIp := d.clientsByIp.getD []
    clientsByUserAgent := d.clientsByUserAgent.getD []
    hourlyRequests := d.hourlyRequests.getD [] }

/-- What `loadFromFirebase()` observably returns: a stored snapshot, or
`null` (Firebase disabled, record missing, or any error — all caught
inside and collapsed to `null`). -/
inductive RemoteLoad where
  | available (d : PartialAnalytics)
  | unavailable
  deriving Repr, DecidableEq

/-- State of the local analytics file. -/
inductive LocalFile where
  /-- `fs.existsSync` is false. -/
  | absent
  /-- reading or `JSON.parse` throws (caught by `loadAnalytics`). -/
  | unreadable
  | ok (d : PartialAnalytics)
  deriving Repr, DecidableEq

/-- `loadAnalytics()` (`http-server.ts` lines 75-100): remote store
first; on `null`, the local file; a missing file or a thrown parse error
leaves `analytics` at its current (initial) value.  Total function: the
startup path never fails. -/
def loadAnalytics (current : AnalyticsData) (now : String)
    (remote : RemoteLoad) (localFile : LocalFile) : AnalyticsData :=
  match remote with
  | .available d => ensureAnalyticsStructure now d
  | .unavailable =>
      match localFile with
      | .ok d => ensureAnalyticsStructure now d
      | .absent => current
      | .unreadable => current

/-! ## Firebase key sanitisation (`firebase-analytics.ts` lines 47-74,
142-166) -/

/-- The six characters Firebase forbids in keys. -/
def forbiddenFirebaseChars : List Char := ['.', '$', '#', '[', ']', '/']

/-- One global single-character `String.replace`. -/
def replaceChar (target : Char) (repl : List Char) : List Char → List Char
  | [] => []
  | c :: cs => (if c = target then repl else [c]) ++ replaceChar target repl cs

/-- `sanitizeKey`: the six chained global replaces, in source order
(`.` `$` `#` `[` `]` `/`). -/
def sanitizeKey (key : String) : String :=
  String.mk
    (replaceChar '/' "_slash_".data
      (replaceChar ']' "_rb_".data
        (replaceChar '[' "_lb_".data
          (replaceChar '#' "_hash_".data
            (replaceChar '$' "_dollar_".data
              (replaceChar '.' "_dot_".data key.data))))))

/-- `sanitizeObjectKeys` restricted to the flat numeric maps it is
applied to in `saveToFirebase`: a new object with sanitised keys and the
values copied. -/
def sanitizeObjectKeys (m : CounterMap) : CounterMap :=
  m.map (fun p => (sanitizeKey p.1, p.2))

/-- The document `saveToFirebase` writes (`sanitizedData`). -/
structure FirebasePayload where
  serverStartTime : String
  totalRequests : Nat
  totalToolCalls : Nat
  requestsByMethod : CounterMap
  requestsByEndpoint : CounterMap
  toolCalls : CounterMap
  recentToolCalls : List ToolCallRecord
  clientsByIp : CounterMap
  clientsByUserAgent : CounterMap
  hourlyRequests : CounterMap
  lastUpdated : Nat
  deriving Repr, DecidableEq

/-- `saveToFirebase` builds a new object by spreading `analytics` and
replacing the six map-valued fields with sanitised copies; the argument
is read, never written. -/
def saveToFirebaseData (a : AnalyticsData) (now : Nat) : FirebasePayload :=
  { serverStartTime := a.serverStartTime
    totalRequests := a.totalRequests
    totalToolCalls := a.totalToolCalls
    requestsByMethod := sanitizeObjectKeys a.requestsByMethod
    requestsByEndpoint := sanitizeObjectKeys a.requestsByEndpoint
    toolCalls := sanitizeObjectKeys a.toolCalls
    recentToolCalls := a.recentToolCalls
    clientsByIp := sanitizeObjectKeys a.clientsByIp
    clientsByUserAgent := sanitizeObjectKeys a.clientsByUserAgent
    hourlyRequests := sanitizeObjectKeys a.hourlyRequests
    lastUpdated := now }

/-! ## Repeated tool-call tracking (for the rolling-history claims) -/

/-- The per-call inputs of one `trackToolCall` invocation. -/
structure CallInfo where
  toolName : String
  timestamp : String
  clientIp : String
  userAgentHeader : Option String
  deriving Repr, DecidableEq

/-- The record `trackToolCall` creates for a call. -/
def mkRecord (c : CallInfo) : ToolCallRecord :=
  { tool := c.toolName
    timestamp := c.timestamp
    clientIp := c.clientIp
    userAgent := (c.userAgentHeader.getD "unknown").take 50 }

/-- A sequence of `trackToolCall` invocations, oldest first. -/
def applyCalls (a : AnalyticsData) (calls : List CallInfo) : AnalyticsData :=
  calls.foldl
    (fun acc c => trackToolCall c.toolName c.timestamp c.clientIp c.userAgentHeader acc)
    a

/-! ## Counter-map lemmas -/

theorem lookupD_bump_self (m : CounterMap) (key : String) (v : Nat) :
    lookupD (bump m key v) key = lookupD m key + v := by
  induction m with
  | nil => simp [bump, lookupD]
  | cons p rest ih =>
      by_cases h : p.1 = key
      · simp [bump, lookupD, h]
      · simp [bump, lookupD, h, ih]

theorem lookupD_bump_ne (m : CounterMap) (key k : String) (v : Nat)
    (h : k ≠ key) : lookupD (bump m key v) k = lookupD m k := by
  induction m with
  | nil =>
      simp only [bump, lookupD]
      rw [if_neg (fun hh : key = k => h hh.symm)]
  | cons p rest ih =>
      by_cases h1 : p.1 = key
      · simp only [bump, if_pos h1, lookupD]
        have h2 : ¬p.1 = k := by rw [h1]; exact fun hh => h hh.symm
        rw [if_neg h2, if_neg h2]
      · simp only [bump, if_neg h1, lookupD]
        by_cases h2 : p.1 = k
        · rw [if_pos h2, if_pos h2]
        · rw [if_neg h2, if_neg h2, ih]

theorem lookupD_eq_zero_of_not_mem_keys (m : CounterMap) (k : String)
    (h : k ∉ m.map Prod.fst) : lookupD m k = 0 := by
  induction m with
  | nil => rfl
  | cons p rest ih =>
      simp only [List.map_cons, List.mem_cons] at h
      push_neg at h
      rw [lookupD, if_neg (Ne.symm h.1)]
      exact ih h.2

theorem lookupD_mergeCounterMap (base delta : CounterMap)
    (hnd : (delta.map Prod.fst).Nodup) (k : String) :
    lookupD (mergeCounterMap base delta) k = lookupD base k + lookupD delta k := by
  induction delta generalizing base with
  | nil => simp [mergeCounterMap, lookupD]
  | cons p rest ih =>
      simp only [List.map_cons, List.nodup_cons] at hnd
      have hstep : mergeCounterMap base (p :: rest)
          = mergeCounterMap (bump base p.1 p.2) rest := rfl
      rw [hstep, ih (bump base p.1 p.2) hnd.2]
      by_cases h : k = p.1
      · rw [h, lookupD_bump_self,
          lookupD_eq_zero_of_not_mem_keys rest p.1 hnd.1]
        simp [lookupD]
      · rw [lookupD_bump_ne base p.1 k p.2 h]
        have hk : ¬p.1 = k := fun hh => h hh.symm
        simp [lookupD, hk]

/-- `importAnalytics` applied to a fully populated snapshot body adds the
two scalar counters and merges the two map fields. -/
theorem importAnalytics_snapshotDelta (a b : AnalyticsData) :
    importAnalytics a (snapshotDelta b) =
      { a with
        totalRequests := a.totalRequests + b.totalRequests
        totalToolCalls := a.totalToolCalls + b.totalToolCalls
        toolCalls := mergeCounterMap a.toolCalls b.toolCalls
        requestsByMethod := mergeCounterMap a.requestsByMethod b.requestsByMethod } := by
  simp only [importAnalytics, snapshotDelta]
  split_ifs <;> simp_all [AnalyticsData.mk.injEq]

/-! ## Rolling-history lemmas -/

theorem take_append_take {α : Type} (X Y : List α) (n : Nat) :
    (X ++ Y.take n).take n = (X ++ Y).take n := by
  rw [List.take_append_eq_append_take, List.take_append_eq_append_take,
    List.take_take, Nat.min_eq_left (Nat.sub_le n X.length)]

theorem trackToolCall_recent (c : CallInfo) (a : AnalyticsData)
    (h : a.recentToolCalls.length ≤ MAX_RECENT_CALLS) :
    (trackToolCall c.toolName c.timestamp c.clientIp c.userAgentHeader a).recentToolCalls
      = (mkRecord c :: a.recentToolCalls).take MAX_RECENT_CALLS := by
  unfold trackToolCall
  dsimp only
  show (if MAX_RECENT_CALLS < (mkRecord c :: a.recentToolCalls).length
        then (mkRecord c :: a.recentToolCalls).dropLast
        else mkRecord c :: a.recentToolCalls)
      = (mkRecord c :: a.recentToolCalls).take MAX_RECENT_CALLS
  by_cases hlen :
      MAX_RECENT_CALLS < (mkRecord c :: a.recentToolCalls).length
  · rw [if_pos hlen, List.dropLast_eq_take]
    congr 1
    simp only [List.length_cons] at hlen ⊢
    omega
  · rw [if_neg hlen]
    exact (List.take_of_length_le (Nat.le_of_not_lt hlen)).symm

theorem applyCalls_recent (calls : List CallInfo) :
    ∀ (a : AnalyticsData), a.recentToolCalls.length ≤ MAX_RECENT_CALLS →
      (applyCalls a calls).recentToolCalls
        = ((calls.reverse.map mkRecord) ++ a.recentToolCalls).take MAX_RECENT_CALLS := by
  induction calls with
  | nil =>
      intro a h
      simpa [applyCalls] using (List.take_of_length_le h).symm
  | cons c cs ih =>
      intro a h
      have hstep : applyCalls a (c :: cs)
          = applyCalls
              (trackToolCall c.toolName c.timestamp c.clientIp c.userAgentHeader a)
              cs := rfl
      have hlen :
          (trackToolCall c.toolName c.timestamp c.clientIp c.userAgentHeader a).recentToolCalls.length
            ≤ MAX_RECENT_CALLS := by
        rw [trackToolCall_recent c a h, List.length_take]
        exact Nat.min_le_left _ _
      rw [hstep, ih _ hlen, trackToolCall_recent c a h, take_append_take]
      congr 1
      simp

/-! ## Sanitisation lemmas -/

theorem mem_replaceChar {c target : Char} {repl s : List Char}
    (h : c ∈ replaceChar target repl s) : c ∈ repl ∨ (c ∈ s ∧ c ≠ target) := by
  induction s with
  | nil => simp [replaceChar] at h
  | cons d ds ih =>
      simp only [replaceChar] at h
      rcases List.mem_append.1 h with h1 | h2
      · by_cases hd : d = target
        · rw [if_pos hd] at h1
          exact Or.inl h1
        · rw [if_neg hd] at h1
          simp only [List.mem_singleton] at h1
          subst h1
          exact Or.inr ⟨List.mem_cons_self _ _, hd⟩
      · rcases ih h2 with h3 | ⟨h4, h5⟩
        · exact Or.inl h3
        · exact Or.inr ⟨List.mem_cons_of_mem _ h4, h5⟩

theorem sanitizeKey_no_forbidden (key : String) (c : Char)
    (hf : c ∈ forbiddenFirebaseChars) : c ∉ (sanitizeKey key).data := by
  intro hmem
  have hr1 : ∀ x ∈ forbiddenFirebaseChars, x ∉ "_dot_".data := by decide
  have hr2 : ∀ x ∈ forbiddenFirebaseChars, x ∉ "_dollar_".data := by decide
  have hr3 : ∀ x ∈ forbiddenFirebaseChars, x ∉ "_hash_".data := by decide
  have hr4 : ∀ x ∈ forbiddenFirebaseChars, x ∉ "_lb_".data := by decide
  have hr5 : ∀ x ∈ forbiddenFirebaseChars, x ∉ "_rb_".data := by decide
  have hr6 : ∀ x ∈ forbiddenFirebaseChars, x ∉ "_slash_".data := by decide
  unfold sanitizeKey at hmem
  dsimp only at hmem
  rcases mem_replaceChar hmem with h | ⟨hmem, hne6⟩
  · exact hr6 c hf h
  rcases mem_replaceChar hmem with h | ⟨hmem, hne5⟩
  · exact hr5 c hf h
  rcases mem_replaceChar hmem with h | ⟨hmem, hne4⟩
  · exact hr4 c hf h
  rcases mem_replaceChar hmem with h | ⟨hmem, hne3⟩
  · exact hr3 c hf h
  rcases mem_replaceChar hmem with h | ⟨hmem, hne2⟩
  · exact hr2 c hf h
  rcases mem_replaceChar hmem with h | ⟨hmem, hne1⟩
  · exact hr1 c hf h
  simp only [forbiddenFirebaseChars, List.mem_cons, List.not_mem_nil,
    or_false] at hf
  rcases hf with rfl | rfl | rfl | rfl | rfl | rfl
  exacts [hne1 rfl, hne2 rfl, hne3 rfl, hne4 rfl, hne5 rfl, hne6 rfl]

/-! ## Concrete scenario runs -/

/-- A concrete analytics state with non-trivial counters, used to
exercise the import endpoint. -/
def aC4 : AnalyticsData :=
  { serverStartTime := "t0"
    totalRequests := 7
    totalToolCalls := 2
    requestsByMethod := [("POST", 7)]
    requestsByEndpoint := [("/mcp", 5)]
    toolCalls := [("bus_arrival", 2)]
    recentToolCalls := []
    clientsByIp := []
    clientsByUserAgent := []
    hourlyRequests := [] }

/-- 101 tool-call invocations, one more than `MAX_RECENT_CALLS`. -/
def calls101 : List CallInfo :=
  (List.range 101).map
    (fun i =>
      { toolName := toString i, timestamp := "t", clientIp := "ip",
        userAgentHeader := none })

/-- The spec scenario for claim C1: `bus_arrival` with
`{busStopCode: "83139"}` through `/mcp` with the server default key,
upstream answering HTTP 200. -/
def c1Invocation :
    AnalyticsData × List UpstreamRequest × Option (Except Fault ToolResult) :=
  mcpToolInvocation (initialAnalytics "t0") "POST" "203.0.113.7"
    (some "mcp-client") "2026-10-11T00" none "serverKey" "bus_arrival"
    { busStopCode := some "83139", serviceNo := none, trainLine := none }
    (.ok "Services: []")

/-- The spec scenario for claim C2: `station_crowding` with
`{trainLine: "ZZZ"}`, a value outside the advertised enumeration; the
upstream rejects it with a structured message. -/
def c2Invocation : List UpstreamRequest × Except Fault ToolResult :=
  callTool "station_crowding"
    { busStopCode := none, serviceNo := none, trainLine := some "ZZZ" }
    "serverKey"
    (.axiosErr (some "Invalid TrainLine") "Request failed with status code 500")

/-! ## Theorems -/

/-- Claim C1 (code bug evidence).  The claim says every tool invocation
whose name resolves is recorded by the analytics aggregator exactly
once; in particular a `bus_arrival` invocation answered with HTTP 200
increments `toolCalls["bus_arrival"]` by 1.  In the source
`trackToolCall` has no call site: running the scenario delivers the
successful result (dispatch succeeded, one upstream request, `isError`
false) yet `totalToolCalls`, `toolCalls["bus_arrival"]` and
`recentToolCalls` are all still zero/empty — the call is recorded zero
times, not once (only the HTTP-request counter moved). -/
theorem c1_tool_call_never_recorded :
    c1Invocation.2.2 =
      some (.ok { content := ["Services: []"], isError := false })
    ∧ c1Invocation.2.1 =
      [{ url := busArrivalUrl, params := [("BusStopCode", "83139")],
         accountKey := "serverKey" }]
    ∧ c1Invocation.1.totalToolCalls = 0
    ∧ lookupD c1Invocation.1.toolCalls "bus_arrival" = 0
    ∧ c1Invocation.1.recentToolCalls = []
    ∧ c1Invocation.1.totalRequests = 1 :=
  ⟨rfl, rfl, rfl, rfl, rfl, rfl⟩

/-- Claim C2 (counterexample).  The claim says `station_crowding` with
`trainLine = "ZZZ"` fails with `InvalidParameter` before any upstream
call is attempted.  In the source the handler performs no validation:
the invocation attempts exactly one upstream GET carrying
`TrainLine=ZZZ`, and the outcome is whatever the upstream answers (here
a soft `isError` result), not a validation failure. -/
theorem c2_upstream_call_attempted :
    c2Invocation.1 =
      [{ url := stationCrowdingUrl, params := [("TrainLine", "ZZZ")],
         accountKey := "serverKey" }]
    ∧ c2Invocation.2 =
      .ok { content := ["LTA API error: Invalid TrainLine"], isError := true } :=
  ⟨rfl, rfl⟩

/-- Claim C2 (amended).  No parameter validation is performed: for every
registered tool name, whatever the arguments, the handler attempts
exactly one upstream HTTP call and returns the upstream-determined
result; the tool-call counters are unchanged by the whole `/mcp`
invocation path. -/
theorem c2_no_parameter_validation (name : String)
    (h : name ∈ registeredToolNames) (args : Args) (key : String)
    (up : UpstreamOutcome) (a : AnalyticsData) (method ip hour : String)
    (ua : Option String) (q : Option String) (dflt : String) :
    (callTool name args key up).1.length = 1
    ∧ (callTool name args key up).2 = makeRequest up
    ∧ (mcpToolInvocation a method ip ua hour q dflt name args up).1.toolCalls
        = a.toolCalls
    ∧ (mcpToolInvocation a method ip ua hour q dflt name args up).1.totalToolCalls
        = a.totalToolCalls := by
  have hmcp :
      (mcpToolInvocation a method ip ua hour q dflt name args up).1
        = trackRequest method "/mcp" ip ua hour a := by
    by_cases hk : getApiKey q dflt = "" <;> simp [mcpToolInvocation, hk]
  refine ⟨?_, ?_, ?_, ?_⟩
  · fin_cases h <;> rfl
  · fin_cases h <;> rfl
  · rw [hmcp]; rfl
  · rw [hmcp]; rfl

/-- Witness for the amended claim C2 at the concrete scenario input. -/
theorem c2_no_parameter_validation_witness :
    "station_crowding" ∈ registeredToolNames
    ∧ (callTool "station_crowding"
        { busStopCode := none, serviceNo := none, trainLine := some "ZZZ" }
        "serverKey" (.ok "B")).1.length = 1 :=
  ⟨by decide,
   (c2_no_parameter_validation "station_crowding" (by decide)
      { busStopCode := none, serviceNo := none, trainLine := some "ZZZ" }
      "serverKey" (.ok "B") (initialAnalytics "t0") "POST" "ip" "h"
      none none "serverKey").1⟩

/-- Claim C3.  The dispatcher result mapping of `makeRequest`: an
axios-recognised upstream failure becomes an ordinary result with
`isError = true` whose text is `LTA API error: ` followed by the
structured upstream message when present, or the generic error message
otherwise — the dispatcher does not throw; an error axios does not
recognise propagates as a hard fault; a 2xx response becomes a
non-error result carrying the body. -/
theorem c3_error_result_mapping (m g e body : String) :
    makeRequest (.axiosErr (some m) g) =
      .ok { content := ["LTA API error: " ++ m], isError := true }
    ∧ makeRequest (.axiosErr none g) =
      .ok { content := ["LTA API error: " ++ g], isError := true }
    ∧ makeRequest (.hardFail e) = .error (.transport e)
    ∧ makeRequest (.ok body) = .ok { content := [body], isError := false } :=
  ⟨rfl, rfl, rfl, rfl⟩

/-- Claim C5 (counterexample).  The claim says a second termination
request for an already-removed session id is a no-op and produces no
error response.  In the source, once `transport.onclose` has removed the
id from the `transports` map, a DELETE naming that id falls into the
`GET/DELETE without a live session` branch, which answers the HTTP 400
error `No active session. Send a POST request first.` — an error
response, not a silent no-op. -/
theorem c5_second_close_errors :
    closeSession ["S1"] "S1" = []
    ∧ mcpRoute (closeSession ["S1"] "S1") none "serverKey" "DELETE"
        (some "S1") = .noSession := by
  constructor
  · rfl
  · decide

/-- Claim C5 (amended).  A termination (DELETE) request naming a session
id not present in the live mapping — in particular an id already closed
and removed — is rejected with the `NoActiveSession` HTTP 400 error
response; no transport work is performed and no session state changes. -/
theorem c5_closed_session_delete (sessions : List String)
    (q : Option String) (dflt sid : String)
    (hkey : getApiKey q dflt ≠ "") (h : sid ∉ sessions) :
    mcpRoute sessions q dflt "DELETE" (some sid) = .noSession := by
  unfold mcpRoute
  rw [if_neg hkey]
  dsimp only
  have h2 : ¬(sid ≠ "" ∧ sid ∈ sessions) := fun hc => h hc.2
  rw [if_neg h2, if_pos (Or.inr rfl)]

/-- Witness for the amended claim C5 at a concrete closed-session id. -/
theorem c5_closed_session_delete_witness :
    getApiKey none "serverKey" ≠ ""
    ∧ "S1" ∉ ([] : List String)
    ∧ mcpRoute [] none "serverKey" "DELETE" (some "S1") = .noSession :=
  ⟨by decide, by decide,
   c5_closed_session_delete [] none "serverKey" "S1" (by decide) (by decide)⟩

/-- Claim C6.  Credential resolution on `/mcp`: a present, non-empty
`apiKey` query parameter is used; otherwise the process default; and
when the resolved key is empty (both absent/empty) the route answers the
HTTP 500 configuration error before any session work, tool dispatch or
upstream request. -/
theorem c6_credential_resolution (q : Option String) (dflt : String) :
    (∀ k, q = some k → k ≠ "" → getApiKey q dflt = k)
    ∧ ((q = none ∨ q = some "") → getApiKey q dflt = dflt)
    ∧ (getApiKey q dflt = "" →
        ∀ a method ip hour name args up ua,
          mcpToolInvocation a method ip ua hour q dflt name args up
            = (trackRequest method "/mcp" ip ua hour a, [], none))
    ∧ (getApiKey q dflt = "" →
        ∀ sessions method sid,
          mcpRoute sessions q dflt method sid = .configError) := by
  refine ⟨?_, ?_, ?_, ?_⟩
  · rintro k rfl hne
    simp [getApiKey, hne]
  · rintro (rfl | rfl) <;> simp [getApiKey]
  · intro hk a method ip hour name args up ua
    simp [mcpToolInvocation, hk]
  · intro hk sessions method sid
    simp [mcpRoute, hk]

/-- Witness for claim C6: a user-supplied key overrides the default, an
absent key falls back, and two empty credentials fail fast. -/
theorem c6_credential_resolution_witness :
    (some "userKey" = some "userKey") ∧ ("userKey" ≠ ("" : String))
    ∧ getApiKey (some "userKey") "serverKey" = "userKey"
    ∧ getApiKey none "serverKey" = "serverKey"
    ∧ getApiKey none "" = ""
    ∧ mcpRoute [] none "" "POST" none = .configError :=
  ⟨rfl, by decide,
   (c6_credential_resolution (some "userKey") "serverKey").1 "userKey" rfl
     (by decide),
   (c6_credential_resolution none "serverKey").2.1 (Or.inl rfl),
   rfl,
   (c6_credential_resolution none "").2.2.2 rfl [] "POST" none⟩

/-- Claim C8.  Startup rehydration: the remote store is tried first and
used whenever it yields data; otherwise the local file; an absent or
unreadable (malformed) file leaves the aggregator at its current
initial value, whose `serverStartTime` is the process start — the
startup path always produces an analytics value.  Whatever copy is
loaded, `ensureAnalyticsStructure` defaults every missing field to its
zero value (counters to 0, maps and the record list to empty). -/
theorem c8_rehydration (current : AnalyticsData) (now : String)
    (d : PartialAnalytics) (lf : LocalFile) :
    loadAnalytics current now (.available d) lf = ensureAnalyticsStructure now d
    ∧ loadAnalytics current now .unavailable (.ok d) = ensureAnalyticsStructure now d
    ∧ loadAnalytics current now .unavailable .absent = current
    ∧ loadAnalytics current now .unavailable .unreadable = current
    ∧ ensureAnalyticsStructure now emptyPartial = initialAnalytics now
    ∧ (ensureAnalyticsStructure now d).totalRequests = d.totalRequests.getD 0
    ∧ (ensureAnalyticsStructure now d).totalToolCalls = d.totalToolCalls.getD 0
    ∧ (ensureAnalyticsStructure now d).toolCalls = d.toolCalls.getD []
    ∧ (ensureAnalyticsStructure now d).recentToolCalls = d.recentToolCalls.getD []
    ∧ (ensureAnalyticsStructure now d).hourlyRequests = d.hourlyRequests.getD [] :=
  ⟨rfl, rfl, rfl, rfl, rfl, rfl, rfl, rfl, rfl, rfl⟩

/-- Claim C10.  Frame property of `POST /analytics/import`: whatever the
request body supplies, only `totalRequests`, `totalToolCalls`,
`toolCalls` and `requestsByMethod` can change; `serverStartTime`,
`requestsByEndpoint`, `clientsByIp`, `clientsByUserAgent`,
`hourlyRequests` and `recentToolCalls` are left untouched. -/
theorem c10_import_frame (a : AnalyticsData) (d : ImportData) :
    (importAnalytics a d).serverStartTime = a.serverStartTime
    ∧ (importAnalytics a d).requestsByEndpoint = a.requestsByEndpoint
    ∧ (importAnalytics a d).clientsByIp = a.clientsByIp
    ∧ (importAnalytics a d).clientsByUserAgent = a.clientsByUserAgent
    ∧ (importAnalytics a d).hourlyRequests = a.hourlyRequests
    ∧ (importAnalytics a d).recentToolCalls = a.recentToolCalls := by
  unfold importAnalytics
  rcases d with ⟨tr, ttc, tc, rbm, _, _, _, _, _, _⟩
  dsimp only
  rcases tr with _ | n <;> rcases ttc with _ | m <;>
    rcases tc with _ | x <;> rcases rbm with _ | y <;>
    dsimp only <;>
    first
      | exact ⟨rfl, rfl, rfl, rfl, rfl, rfl⟩
      | (split_ifs <;> exact ⟨rfl, rfl, rfl, rfl, rfl, rfl⟩)

/-- Claim C4 (counterexample).  The claim says the import merge treats
map-valued fields key-by-key, so merging the aggregator's own snapshot
into itself doubles every counter.  At `aC4` the full self-snapshot is
supplied as the import body, yet `requestsByEndpoint["/mcp"]` stays at 5
instead of doubling to 10: the handler ignores `requestsByEndpoint`
(and every map other than `toolCalls` and `requestsByMethod`) even when
the delta supplies it. -/
theorem c4_self_merge_not_doubling :
    lookupD aC4.requestsByEndpoint "/mcp" = 5
    ∧ lookupD (importAnalytics aC4 (snapshotDelta aC4)).requestsByEndpoint "/mcp" = 5
    ∧ ¬(lookupD (importAnalytics aC4 (snapshotDelta aC4)).requestsByEndpoint "/mcp"
          = 2 * lookupD aC4.requestsByEndpoint "/mcp") := by
  decide

/-- Claim C4 (amended).  `POST /analytics/import` is additive on exactly
the four fields the handler reads: `totalRequests` and `totalToolCalls`
are summed, `toolCalls` and `requestsByMethod` are merged key-by-key
with missing keys treated as zero; all other fields of the delta are
ignored.  Consequently self-merge doubles those four fields (only), and
merging a snapshot into a freshly zeroed aggregator reproduces those
four fields exactly. -/
theorem c4_additive_merge (a : AnalyticsData)
    (h1 : (a.toolCalls.map Prod.fst).Nodup)
    (h2 : (a.requestsByMethod.map Prod.fst).Nodup) :
    (importAnalytics a (snapshotDelta a)).totalRequests = 2 * a.totalRequests
    ∧ (importAnalytics a (snapshotDelta a)).totalToolCalls = 2 * a.totalToolCalls
    ∧ (∀ k, lookupD (importAnalytics a (snapshotDelta a)).toolCalls k
        = 2 * lookupD a.toolCalls k)
    ∧ (∀ k, lookupD (importAnalytics a (snapshotDelta a)).requestsByMethod k
        = 2 * lookupD a.requestsByMethod k)
    ∧ (importAnalytics (initialAnalytics a.serverStartTime) (snapshotDelta a)).totalRequests
        = a.totalRequests
    ∧ (importAnalytics (initialAnalytics a.serverStartTime) (snapshotDelta a)).totalToolCalls
        = a.totalToolCalls
    ∧ (∀ k, lookupD (importAnalytics (initialAnalytics a.serverStartTime) (snapshotDelta a)).toolCalls k
        = lookupD a.toolCalls k)
    ∧ (∀ k, lookupD (importAnalytics (initialAnalytics a.serverStartTime) (snapshotDelta a)).requestsByMethod k
        = lookupD a.requestsByMethod k) := by
  rw [importAnalytics_snapshotDelta, importAnalytics_snapshotDelta]
  refine ⟨by dsimp only; omega, by dsimp only; omega, ?_, ?_, ?_, ?_, ?_, ?_⟩
  · intro k
    dsimp only
    rw [lookupD_mergeCounterMap _ _ h1]
    omega
  · intro k
    dsimp only
    rw [lookupD_mergeCounterMap _ _ h2]
    omega
  · dsimp only [initialAnalytics]
    omega
  · dsimp only [initialAnalytics]
    omega
  · intro k
    dsimp only [initialAnalytics]
    rw [lookupD_mergeCounterMap _ _ h1]
    simp [lookupD]
  · intro k
    dsimp only [initialAnalytics]
    rw [lookupD_mergeCounterMap _ _ h2]
    simp [lookupD]

/-- Witness for the amended claim C4 at the concrete state `aC4`. -/
theorem c4_additive_merge_witness :
    (aC4.toolCalls.map Prod.fst).Nodup
    ∧ (aC4.requestsByMethod.map Prod.fst).Nodup
    ∧ (importAnalytics aC4 (snapshotDelta aC4)).totalRequests = 2 * aC4.totalRequests :=
  ⟨by decide, by decide, (c4_additive_merge aC4 (by decide) (by decide)).1⟩

/-- Claim C7.  Starting from an empty rolling history, any sequence of
`trackToolCall` invocations leaves `recentToolCalls` equal to the
newest `MAX_RECENT_CALLS` (100) created records in most-recent-first
order — so the length never exceeds 100, once more than 100 records
have been appended exactly the newest 100 remain and the oldest are
absent, and every retained entry is the record as created. -/
theorem c7_rolling_history (calls : List CallInfo) (a : AnalyticsData)
    (h : a.recentToolCalls = []) :
    (applyCalls a calls).recentToolCalls
      = (calls.reverse.take MAX_RECENT_CALLS).map mkRecord
    ∧ (applyCalls a calls).recentToolCalls.length
      = min MAX_RECENT_CALLS calls.length := by
  have h1 := applyCalls_recent calls a (by simp [h])
  rw [h, List.append_nil] at h1
  constructor
  · rw [h1, List.map_take]
  · rw [h1, List.length_take, List.length_map, List.length_reverse]

/-- Witness for claim C7: 101 appends onto a fresh aggregator. -/
theorem c7_rolling_history_witness :
    (initialAnalytics "t0").recentToolCalls = []
    ∧ (applyCalls (initialAnalytics "t0") calls101).recentToolCalls
        = (calls101.reverse.take MAX_RECENT_CALLS).map mkRecord :=
  ⟨rfl, (c7_rolling_history calls101 (initialAnalytics "t0") rfl).1⟩

/-- Claim C9.  `sanitizeKey` removes every occurrence of the six
Firebase-forbidden characters (`.` `$` `#` `[` `]` `/`), replacing them
by `_dot_`, `_dollar_`, `_hash_`, `_lb_`, `_rb_`, `_slash_`, so no
serialized key contains any of the six; and `saveToFirebase` applies the
sanitisation only while building the outgoing payload — the payload maps
are sanitised copies (`sanitizeObjectKeys`, a fresh object mapping each
key through `sanitizeKey`) while the in-memory analytics value itself is
only read: its fields are carried over unchanged wherever they are not
replaced by a sanitised copy. -/
theorem c9_key_sanitisation :
    (∀ (key : String) (c : Char), c ∈ forbiddenFirebaseChars →
        c ∉ (sanitizeKey key).data)
    ∧ (∀ (m : CounterMap),
        sanitizeObjectKeys m = m.map (fun p => (sanitizeKey p.1, p.2)))
    ∧ (∀ (a : AnalyticsData) (now : Nat),
        (saveToFirebaseData a now).toolCalls = sanitizeObjectKeys a.toolCalls
        ∧ (saveToFirebaseData a now).requestsByMethod
            = sanitizeObjectKeys a.requestsByMethod
        ∧ (saveToFirebaseData a now).requestsByEndpoint
            = sanitizeObjectKeys a.requestsByEndpoint
        ∧ (saveToFirebaseData a now).clientsByIp
            = sanitizeObjectKeys a.clientsByIp
        ∧ (saveToFirebaseData a now).clientsByUserAgent
            = sanitizeObjectKeys a.clientsByUserAgent
        ∧ (saveToFirebaseData a now).hourlyRequests
            = sanitizeObjectKeys a.hourlyRequests
        ∧ (saveToFirebaseData a now).serverStartTime = a.serverStartTime
        ∧ (saveToFirebaseData a now).totalRequests = a.totalRequests
        ∧ (saveToFirebaseData a now).totalToolCalls = a.totalToolCalls
        ∧ (saveToFirebaseData a now).recentToolCalls = a.recentToolCalls
        ∧ (saveToFirebaseData a now).lastUpdated = now) :=
  ⟨fun key c hf => sanitizeKey_no_forbidden key c hf,
   fun _ => rfl,
   fun _ _ => ⟨rfl, rfl, rfl, rfl, rfl, rfl, rfl, rfl, rfl, rfl, rfl⟩⟩

/-- Witness for claim C9 at a concrete key containing forbidden
characters. -/
theorem c9_key_sanitisation_witness :
    ('.' ∈ forbiddenFirebaseChars)
    ∧ '.' ∉ (sanitizeKey "a.b/c").data :=
  ⟨by decide, c9_key_sanitisation.1 "a.b/c" '.' (by decide)⟩

end LtaMcp
